import Mathlib

/-!
Shallow embedding of the DFA module of the dfa-runner repository
(src/DFA.py) and verification of its specification.

Python sets (`states`, `alphabet`, `final_states`) are modelled as
`Finset`; the Python dict `transitions` (insertion-ordered, keyed by
`(state, character)` pairs) is modelled as an association list whose
lookup returns the first matching binding.  The single Python exception
class `InvalidDFA` is raised with six distinct message families; these
are modelled by the `ValidationError` inductive (one constructor per
message raised by the validator) and by the `SimResult.undefinedTransition`
constructor (the message raised inside `dfa_accepts`).  A Python function
that either returns normally or raises becomes a function into
`Option`/`SimResult`.
-/

namespace DFARunner

variable {S C : Type} [DecidableEq S] [DecidableEq C]

/-- Embedding of the `DFA` namedtuple of src/DFA.py: states, alphabet,
transition function, start state and final states. -/
structure DFA (S C : Type) where
  states : Finset S
  alphabet : Finset C
  transitions : List ((S × C) × S)
  start_state : S
  final_states : Finset S
  deriving DecidableEq

/-- Result of running `dfa_accepts`: either a boolean verdict, or the
`InvalidDFA` exception raised from inside the simulator ("Something went
wrong when attempting transition from state s on input c"), carrying the
state and character extracted from the `KeyError`. -/
inductive SimResult (S C : Type) where
  | ok (accepted : Bool)
  | undefinedTransition (state : S) (character : C)
  deriving DecidableEq

/-- Embedding of the Python dict lookup `transitions[(state, character)]`:
returns the binding of the first matching key, or `none` (a `KeyError`). -/
def lookupKey (k : S × C) : List ((S × C) × S) → Option S
  | [] => none
  | (k2, v) :: rest => if k = k2 then some v else lookupKey k rest

/-- The loop of `dfa_accepts` (src/DFA.py lines 45-66), with the current
state made explicit.  Each character is looked up in the transition dict;
on a `KeyError` the handler rejects when the character is outside the
alphabet and otherwise raises `InvalidDFA` with the state and character;
when the input is exhausted the verdict is membership of the current state
in `final_states`. -/
def dfa_accepts_from (dfa : DFA S C) (current_state : S) :
    List C → SimResult S C
  | [] => .ok (decide (current_state ∈ dfa.final_states))
  | character :: rest =>
    match lookupKey (current_state, character) dfa.transitions with
    | some next => dfa_accepts_from dfa next rest
    | none =>
      if character ∉ dfa.alphabet then .ok false
      else .undefinedTransition current_state character

/-- Embedding of `dfa_accepts` (src/DFA.py lines 41-66): run the loop
starting from `dfa.start_state`. -/
def dfa_accepts (dfa : DFA S C) (input_string : List C) : SimResult S C :=
  dfa_accepts_from dfa dfa.start_state input_string

/-- Fuel-indexed variant of the simulator loop, used to express that the
simulation consumes one input symbol per step and terminates within
`input_string.length` steps.  With fuel `0` and input remaining it answers
`none`; otherwise it takes exactly the steps of `dfa_accepts_from`. -/
def dfa_accepts_fuel (dfa : DFA S C) :
    Nat → S → List C → Option (SimResult S C)
  | _, current_state, [] =>
    some (.ok (decide (current_state ∈ dfa.final_states)))
  | 0, _, _ :: _ => none
  | fuel + 1, current_state, character :: rest =>
    match lookupKey (current_state, character) dfa.transitions with
    | some next => dfa_accepts_fuel dfa fuel next rest
    | none =>
      some (if character ∉ dfa.alphabet then .ok false
            else .undefinedTransition current_state character)

/-- The distinct `InvalidDFA` messages raised by the validation functions
of src/DFA.py, one constructor per message. -/
inductive ValidationError (S C : Type) where
  | acceptingStatesNotInStates
  | startStateNotInStates
  | transitionUsesUnknownSymbols (invalid_characters : Finset C)
  | transitionFromUnknownState
  | transitionToUnknownState
  | incompleteTransitionFunction (state : S)
  deriving DecidableEq

/-- Embedding of `validate_final_states` (src/DFA.py lines 92-96): `none`
when every final state is a state, otherwise the raised error. -/
def validate_final_states (states final_states : Finset S) :
    Option (ValidationError S C) :=
  if ∀ f ∈ final_states, f ∈ states then none
  else some .acceptingStatesNotInStates

/-- Embedding of `validate_start_state` (src/DFA.py lines 99-101). -/
def validate_start_state (states : Finset S) (start_state : S) :
    Option (ValidationError S C) :=
  if start_state ∈ states then none else some .startStateNotInStates

/-- The set `invalid_characters` computed on src/DFA.py line 109: the
transition-key characters that are not in the alphabet. -/
def invalid_characters (transitions : List ((S × C) × S))
    (alphabet : Finset C) : Finset C :=
  ((transitions.map (fun kv => kv.1.2)).filter
    (fun c => decide (c ∉ alphabet))).toFinset

/-- The per-state entry of the `state_character_sets` defaultdict built on
src/DFA.py lines 127-131: the set of characters appearing in transition
keys whose source is `s`. -/
def state_character_set (transitions : List ((S × C) × S)) (s : S) :
    Finset C :=
  ((transitions.filter (fun kv => decide (kv.1.1 = s))).map
    (fun kv => kv.1.2)).toFinset

/-- The loop of src/DFA.py lines 134-137: the first source state, in
first-occurrence (defaultdict insertion) order, whose character set
differs from the alphabet.  Since `state_character_set` depends only on
the state, scanning all key source states in order finds the same first
offender as scanning their deduplicated list. -/
def first_incomplete_state (transitions : List ((S × C) × S))
    (alphabet : Finset C) : Option S :=
  (transitions.map (fun kv => kv.1.1)).find?
    (fun s => decide (state_character_set transitions s ≠ alphabet))

/-- Embedding of `validate_transitions` (src/DFA.py lines 104-137): the
four checks in source order, each raising on first failure. -/
def validate_transitions (states : Finset S)
    (transitions : List ((S × C) × S)) (alphabet : Finset C) :
    Option (ValidationError S C) :=
  if ¬ (∀ kv ∈ transitions, kv.1.2 ∈ alphabet) then
    some (.transitionUsesUnknownSymbols
      (invalid_characters transitions alphabet))
  else if ¬ (∀ kv ∈ transitions, kv.1.1 ∈ states) then
    some .transitionFromUnknownState
  else if ¬ (∀ kv ∈ transitions, kv.2 ∈ states) then
    some .transitionToUnknownState
  else
    (first_incomplete_state transitions alphabet).map
      .incompleteTransitionFunction

/-- Embedding of `validate_dfa` (src/DFA.py lines 72-89): the three
validators in order, propagating the first raised error. -/
def validate_dfa (dfa : DFA S C) : Option (ValidationError S C) :=
  match (validate_final_states dfa.states dfa.final_states :
      Option (ValidationError S C)) with
  | some e => some e
  | none =>
    match (validate_start_state dfa.states dfa.start_state :
        Option (ValidationError S C)) with
    | some e => some e
    | none => validate_transitions dfa.states dfa.transitions dfa.alphabet

/-- Invariant 1 of the spec: every final state is a state. -/
@[reducible] def FinalStatesValid (dfa : DFA S C) : Prop :=
  ∀ f ∈ dfa.final_states, f ∈ dfa.states

/-- Invariant 2 of the spec: the start state is a state. -/
@[reducible] def StartStateValid (dfa : DFA S C) : Prop :=
  dfa.start_state ∈ dfa.states

/-- Every transition-key character is in the alphabet. -/
@[reducible] def TransitionSymbolsValid (dfa : DFA S C) : Prop :=
  ∀ kv ∈ dfa.transitions, kv.1.2 ∈ dfa.alphabet

/-- Every transition-key source state is a state. -/
@[reducible] def TransitionSourcesValid (dfa : DFA S C) : Prop :=
  ∀ kv ∈ dfa.transitions, kv.1.1 ∈ dfa.states

/-- Every transition destination is a state. -/
@[reducible] def TransitionTargetsValid (dfa : DFA S C) : Prop :=
  ∀ kv ∈ dfa.transitions, kv.2 ∈ dfa.states

/-- The totality condition the code actually checks: every state that
occurs as a transition-key source has character set equal to the
alphabet. -/
@[reducible] def TransitionsTotalChecked (dfa : DFA S C) : Prop :=
  ∀ kv ∈ dfa.transitions,
    state_character_set dfa.transitions kv.1.1 = dfa.alphabet

/-- The odd-number-of-as DFA of the spec scenarios. -/
def odd_as : DFA Nat Char :=
  DFA.mk {1, 2} {'a', 'b'}
    [((1, 'a'), 2), ((1, 'b'), 1), ((2, 'a'), 1), ((2, 'b'), 2)] 1 {2}

/-- The odd-number-of-as DFA with the `(1, b)` transition removed. -/
def odd_as_missing_b : DFA Nat Char :=
  DFA.mk {1, 2} {'a', 'b'} [((1, 'a'), 2), ((2, 'a'), 1), ((2, 'b'), 2)] 1 {2}

/-- A DFA that passes `validate_dfa` although state 2 has no outgoing
transitions: the totality loop only inspects states that occur as
transition-key sources, so it never examines state 2. -/
def bad_dfa : DFA Nat Char :=
  DFA.mk {1, 2} {'a'} [((1, 'a'), 2)] 1 ∅

/-- A DFA carrying a transition on the character z although z is not in
its alphabet. -/
def alien_symbol_dfa : DFA Nat Char :=
  DFA.mk {1, 2} {'a'} [((1, 'z'), 2), ((1, 'a'), 1), ((2, 'a'), 2)] 1 {2}

/-- A DFA violating both invariant 1 (final state 5 is not a state) and
invariant 5 (state 1 has no transition on b). -/
def doubly_invalid_dfa : DFA Nat Char :=
  DFA.mk {1, 2, 3, 4} {'a', 'b'} [((1, 'a'), 1)] 1 {5}

/-- The odd-number-of-as DFA with its states field emptied; all other
fields agree with `odd_as`. -/
def odd_as_no_states : DFA Nat Char :=
  DFA.mk ∅ {'a', 'b'}
    [((1, 'a'), 2), ((1, 'b'), 1), ((2, 'a'), 1), ((2, 'b'), 2)] 1 {2}

/-- C7: on the odd-number-of-as DFA, `dfa_accepts` accepts "abbaa" and
rejects "abba". -/
theorem C7_odd_as_scenario :
    dfa_accepts odd_as ['a', 'b', 'b', 'a', 'a'] = .ok true ∧
    dfa_accepts odd_as ['a', 'b', 'b', 'a'] = .ok false := by
  decide

/-- C1: the claim says a DFA passing validation never yields the
undefined-transition error on inputs drawn from its alphabet, but
`bad_dfa` passes `validate_dfa`, the input "aa" is drawn from its
alphabet, and simulation raises the error at state 2 on a: the validator
never checks totality for states with no outgoing transitions, although
its own docstring promises a transition for each character for each state
in `dfa.states`. -/
theorem C1_validated_total_input_raises :
    validate_dfa bad_dfa = none ∧
    (∀ c ∈ ['a', 'a'], c ∈ bad_dfa.alphabet) ∧
    dfa_accepts bad_dfa ['a', 'a'] = .undefinedTransition 2 'a' := by
  decide

/-- C2: the claim says validation establishes invariant 5 for every state
in `dfa.states`, but `bad_dfa` passes `validate_dfa` while its state 2 has
an empty character set, not equal to the alphabet: the totality loop only
ranges over states occurring as transition-key sources. -/
theorem C2_validated_state_without_transitions :
    validate_dfa bad_dfa = none ∧
    (2 : Nat) ∈ bad_dfa.states ∧
    state_character_set bad_dfa.transitions 2 ≠ bad_dfa.alphabet := by
  decide

/-- C3: the claim says a validated DFA returns false (never raises) on any
input containing an out-of-alphabet symbol, but `bad_dfa` passes
`validate_dfa` and on "aab" (whose b is outside the alphabet) the
simulator raises the undefined-transition error at state 2 on a before
ever reaching the b. -/
theorem C3_validated_out_of_alphabet_raises :
    validate_dfa bad_dfa = none ∧
    'b' ∈ ['a', 'a', 'b'] ∧ 'b' ∉ bad_dfa.alphabet ∧
    dfa_accepts bad_dfa ['a', 'a', 'b'] = .undefinedTransition 2 'a' := by
  decide

/-- C4: for every DFA, when the current character is in the alphabet but
the pair of the current state and that character is not a transition key,
the simulator stops at once with the undefined-transition error carrying
that state and character; concretely, on the odd-as DFA missing its
`(1, b)` transition, input "bbbbb" raises the error for state 1 and b on
the first symbol. -/
theorem C4_undefined_transition_defect {S C : Type} [DecidableEq S]
    [DecidableEq C] (dfa : DFA S C) (current_state : S) (c : C)
    (rest : List C)
    (hmiss : lookupKey (current_state, c) dfa.transitions = none)
    (halpha : c ∈ dfa.alphabet) :
    dfa_accepts_from dfa current_state (c :: rest) =
      .undefinedTransition current_state c ∧
    dfa_accepts odd_as_missing_b ['b', 'b', 'b', 'b', 'b'] =
      .undefinedTransition 1 'b' := by
  refine ⟨?_, by decide⟩
  simp [dfa_accepts_from, hmiss, halpha]

/-- Witness for C4 at the concrete missing-transition DFA, current state
1, character b and remaining input empty. -/
theorem C4_witness :
    dfa_accepts_from odd_as_missing_b 1 ['b'] =
      .undefinedTransition 1 'b' ∧
    dfa_accepts odd_as_missing_b ['b', 'b', 'b', 'b', 'b'] =
      .undefinedTransition 1 'b' :=
  C4_undefined_transition_defect odd_as_missing_b 1 'b' []
    (by decide) (by decide)

/-- C5: for every DFA, on empty input the simulator answers true exactly
when the start state is final, and the verdict does not depend on the
transition function at all (no lookup is attempted). -/
theorem C5_empty_input_law {S C : Type} [DecidableEq S] [DecidableEq C]
    (dfa : DFA S C) :
    (dfa_accepts dfa [] = .ok true ↔
      dfa.start_state ∈ dfa.final_states) ∧
    ∀ ts : List ((S × C) × S),
      dfa_accepts
          (DFA.mk dfa.states dfa.alphabet ts dfa.start_state
            dfa.final_states) [] =
        dfa_accepts dfa [] := by
  constructor
  · simp [dfa_accepts, dfa_accepts_from]
  · intro ts
    rfl

/-- C9: for every DFA, validated or not, when the pair of the current
state and the current character is a transition key, the simulator moves
to the mapped state and continues with the rest of the input; the
alphabet is never consulted, so this holds even for a character outside
the alphabet. -/
theorem C9_lookup_precedes_alphabet {S C : Type} [DecidableEq S]
    [DecidableEq C] (dfa : DFA S C) (current_state next : S) (c : C)
    (rest : List C)
    (hfound : lookupKey (current_state, c) dfa.transitions = some next) :
    dfa_accepts_from dfa current_state (c :: rest) =
      dfa_accepts_from dfa next rest := by
  simp [dfa_accepts_from, hfound]

/-- Witness for C9 on a DFA with a transition entry for the character z
that is outside its alphabet: the entry is taken and the string is
accepted rather than rejected. -/
theorem C9_witness :
    (dfa_accepts_from alien_symbol_dfa 1 ['z'] =
      dfa_accepts_from alien_symbol_dfa 2 []) ∧
    'z' ∉ alien_symbol_dfa.alphabet ∧
    dfa_accepts alien_symbol_dfa ['z'] = .ok true :=
  ⟨C9_lookup_precedes_alphabet alien_symbol_dfa 1 2 'z' [] (by decide),
    by decide, by decide⟩

/-- Helper: when invariants 1 and 2 hold, `validate_dfa` reduces to
`validate_transitions`. -/
theorem validate_dfa_eq_validate_transitions (dfa : DFA S C)
    (h1 : FinalStatesValid dfa) (h2 : StartStateValid dfa) :
    validate_dfa dfa =
      validate_transitions dfa.states dfa.transitions dfa.alphabet := by
  unfold validate_dfa validate_final_states validate_start_state
  rw [if_pos h1, if_pos h2]

/-- Helper: when the first three transition checks hold,
`validate_transitions` reduces to the totality scan. -/
theorem validate_transitions_eq_totality_scan (dfa : DFA S C)
    (h3 : TransitionSymbolsValid dfa) (h4 : TransitionSourcesValid dfa)
    (h5 : TransitionTargetsValid dfa) :
    validate_transitions dfa.states dfa.transitions dfa.alphabet =
      (first_incomplete_state dfa.transitions dfa.alphabet).map
        .incompleteTransitionFunction := by
  unfold validate_transitions
  rw [if_neg (not_not_intro h3), if_neg (not_not_intro h4),
    if_neg (not_not_intro h5)]

/-- C6: the validator runs its checks in the fixed source order with
short-circuiting, so the reported error is the one of the earliest
violated check; when all checks pass it reports nothing. -/
theorem C6_validation_order {S C : Type} [DecidableEq S] [DecidableEq C]
    (dfa : DFA S C) :
    (¬ FinalStatesValid dfa →
      validate_dfa dfa = some .acceptingStatesNotInStates) ∧
    (FinalStatesValid dfa → ¬ StartStateValid dfa →
      validate_dfa dfa = some .startStateNotInStates) ∧
    (FinalStatesValid dfa → StartStateValid dfa →
      ¬ TransitionSymbolsValid dfa →
      validate_dfa dfa = some (.transitionUsesUnknownSymbols
        (invalid_characters dfa.transitions dfa.alphabet))) ∧
    (FinalStatesValid dfa → StartStateValid dfa →
      TransitionSymbolsValid dfa → ¬ TransitionSourcesValid dfa →
      validate_dfa dfa = some .transitionFromUnknownState) ∧
    (FinalStatesValid dfa → StartStateValid dfa →
      TransitionSymbolsValid dfa → TransitionSourcesValid dfa →
      ¬ TransitionTargetsValid dfa →
      validate_dfa dfa = some .transitionToUnknownState) ∧
    (FinalStatesValid dfa → StartStateValid dfa →
      TransitionSymbolsValid dfa → TransitionSourcesValid dfa →
      TransitionTargetsValid dfa → ¬ TransitionsTotalChecked dfa →
      ∃ s, validate_dfa dfa = some (.incompleteTransitionFunction s)) ∧
    (FinalStatesValid dfa → StartStateValid dfa →
      TransitionSymbolsValid dfa → TransitionSourcesValid dfa →
      TransitionTargetsValid dfa → TransitionsTotalChecked dfa →
      validate_dfa dfa = none) := by
  refine ⟨?_, ?_, ?_, ?_, ?_, ?_, ?_⟩
  · intro h1
    unfold validate_dfa validate_final_states
    rw [if_neg h1]
  · intro h1 h2
    unfold validate_dfa validate_final_states validate_start_state
    rw [if_pos h1, if_neg h2]
  · intro h1 h2 h3
    rw [validate_dfa_eq_validate_transitions dfa h1 h2]
    unfold validate_transitions
    rw [if_pos h3]
  · intro h1 h2 h3 h4
    rw [validate_dfa_eq_validate_transitions dfa h1 h2]
    unfold validate_transitions
    rw [if_neg (not_not_intro h3), if_pos h4]
  · intro h1 h2 h3 h4 h5
    rw [validate_dfa_eq_validate_transitions dfa h1 h2]
    unfold validate_transitions
    rw [if_neg (not_not_intro h3), if_neg (not_not_intro h4), if_pos h5]
  · intro h1 h2 h3 h4 h5 h6
    rw [validate_dfa_eq_validate_transitions dfa h1 h2,
      validate_transitions_eq_totality_scan dfa h3 h4 h5]
    unfold TransitionsTotalChecked at h6
    push_neg at h6
    obtain ⟨kv, hkv, hne⟩ := h6
    have hmem : kv.1.1 ∈ dfa.transitions.map (fun kv => kv.1.1) :=
      List.mem_map_of_mem _ hkv
    cases hfind : first_incomplete_state dfa.transitions dfa.alphabet with
    | none =>
      unfold first_incomplete_state at hfind
      exact absurd (decide_eq_true hne)
        (List.find?_eq_none.mp hfind kv.1.1 hmem)
    | some s =>
      exact ⟨s, rfl⟩
  · intro h1 h2 h3 h4 h5 h6
    rw [validate_dfa_eq_validate_transitions dfa h1 h2,
      validate_transitions_eq_totality_scan dfa h3 h4 h5]
    have hnone : first_incomplete_state dfa.transitions dfa.alphabet =
        none := by
      unfold first_incomplete_state
      refine List.find?_eq_none.mpr ?_
      intro x hx
      obtain ⟨kv, hkv, rfl⟩ := List.mem_map.mp hx
      simp [h6 kv hkv]
    rw [hnone]
    rfl

/-- Witness for C6 at a DFA violating both invariant 1 and invariant 5:
the reported error is the final-states one, belonging to the earliest
violated check. -/
theorem C6_witness :
    (¬ FinalStatesValid doubly_invalid_dfa ∧
      ¬ TransitionsTotalChecked doubly_invalid_dfa) ∧
    validate_dfa doubly_invalid_dfa =
      some ValidationError.acceptingStatesNotInStates :=
  ⟨⟨by decide, by decide⟩,
    (C6_validation_order doubly_invalid_dfa).1 (by decide)⟩

/-- Helper: fuel at least the input length suffices for the fuel-indexed
simulator to agree with the simulator. -/
theorem dfa_accepts_fuel_sufficient (dfa : DFA S C)
    (input_string : List C) :
    ∀ (fuel : Nat) (current_state : S), input_string.length ≤ fuel →
      dfa_accepts_fuel dfa fuel current_state input_string =
        some (dfa_accepts_from dfa current_state input_string) := by
  induction input_string with
  | nil =>
    intro fuel s h
    cases fuel <;> rfl
  | cons c rest ih =>
    intro fuel s h
    cases fuel with
    | zero => simp at h
    | succ f =>
      cases hl : lookupKey (s, c) dfa.transitions with
      | some next =>
        simp only [dfa_accepts_fuel, dfa_accepts_from, hl]
        exact ih f next (Nat.le_of_succ_le_succ h)
      | none =>
        simp only [dfa_accepts_fuel, dfa_accepts_from, hl]

/-- C8: the simulator consumes one input symbol per step and terminates
within exactly the length of the input: with that much fuel the
fuel-indexed loop never runs out, from any current state and in
particular from the start state. -/
theorem C8_single_pass_termination {S C : Type} [DecidableEq S]
    [DecidableEq C] (dfa : DFA S C) (current_state : S)
    (input_string : List C) :
    dfa_accepts_fuel dfa input_string.length current_state input_string =
      some (dfa_accepts_from dfa current_state input_string) ∧
    dfa_accepts_fuel dfa input_string.length dfa.start_state
        input_string =
      some (dfa_accepts dfa input_string) :=
  ⟨dfa_accepts_fuel_sufficient dfa input_string input_string.length
      current_state le_rfl,
    dfa_accepts_fuel_sufficient dfa input_string input_string.length
      dfa.start_state le_rfl⟩

/-- Helper: the simulator loop never reads the states field. -/
theorem dfa_accepts_from_states_irrelevant (states1 states2 : Finset S)
    (alphabet : Finset C) (transitions : List ((S × C) × S))
    (start_state : S) (final_states : Finset S)
    (input_string : List C) :
    ∀ current_state : S,
      dfa_accepts_from
          (DFA.mk states1 alphabet transitions start_state final_states)
          current_state input_string =
        dfa_accepts_from
          (DFA.mk states2 alphabet transitions start_state final_states)
          current_state input_string := by
  induction input_string with
  | nil => intro s; rfl
  | cons c rest ih =>
    intro s
    cases hl : lookupKey (s, c) transitions with
    | some next =>
      simp only [dfa_accepts_from, hl]
      exact ih next
    | none =>
      simp only [dfa_accepts_from, hl]

/-- C10: two DFA values agreeing on alphabet, transitions, start state
and final states, but with arbitrary states fields, produce the identical
simulation outcome on every input (same boolean or same error): the
simulator never reads the states field. -/
theorem C10_states_field_irrelevant {S C : Type} [DecidableEq S]
    [DecidableEq C] (dfa1 dfa2 : DFA S C) (input_string : List C)
    (halphabet : dfa1.alphabet = dfa2.alphabet)
    (htransitions : dfa1.transitions = dfa2.transitions)
    (hstart : dfa1.start_state = dfa2.start_state)
    (hfinal : dfa1.final_states = dfa2.final_states) :
    dfa_accepts dfa1 input_string = dfa_accepts dfa2 input_string := by
  obtain ⟨st1, al1, tr1, ss1, fs1⟩ := dfa1
  obtain ⟨st2, al2, tr2, ss2, fs2⟩ := dfa2
  dsimp at halphabet htransitions hstart hfinal
  subst halphabet htransitions hstart hfinal
  exact dfa_accepts_from_states_irrelevant st1 st2 al1 tr1 ss1 fs1
    input_string ss1

/-- Witness for C10: the odd-as DFA and its states-emptied variant give
the same verdict on "ab". -/
theorem C10_witness :
    dfa_accepts odd_as ['a', 'b'] =
      dfa_accepts odd_as_no_states ['a', 'b'] :=
  C10_states_field_irrelevant odd_as odd_as_no_states ['a', 'b']
    rfl rfl rfl rfl

end DFARunner
